import Mathlib

/-!
Shallow embedding of the WebSocket relay in `src/websocket.js` of the
m-essenger-server repository, together with the parts of the database
helper module (`dbHelpers`) that the relay calls.

Modelling choices:
* A connection handle (`ws`) is a `Nat`.  The global `connections` map
  (`Map<userId, WebSocket>`) is an association list with JavaScript `Map`
  semantics: `set` updates in place or appends, `get` returns the first
  match, `delete` removes the key.
* `readyState === WebSocket.OPEN` is modelled by membership of the handle
  in `ServerState.openConns`.
* The external store (`dbHelpers`) is an environment of functions returning
  `Except String _`; `.error e` models a rejected promise whose
  `error.message` is `e`.  `createMessage` never resolves `undefined`: on
  success the helper builds the record from its arguments plus a fresh id
  and timestamp supplied by the environment.  `getUserById` resolves the
  row or `undefined` (`Option`), mirroring `db.get`.
* One inbound frame is processed by `onMessage`, which returns the list of
  effects performed (registry mutations, store calls, frame sends), the
  new server state, and the new value of the per-connection `userId`
  variable.  A `ws.send` that the code never reaches (target not live and
  open) produces no effect; an exception thrown inside the `try` block
  aborts the remaining effects and the `catch` appends a single
  `error`-frame send, exactly as in the source.
-/

/-- A user row as returned by `dbHelpers.getUserById`
(`SELECT id, username, email, avatar, status FROM users WHERE id = ?`). -/
structure UserRec where
  id : String
  username : String
  email : String
  avatar : String
  status : String
deriving DecidableEq

/-- The record resolved by `dbHelpers.createMessage`:
`{id, conversationId, senderId, content, type, createdAt}`.
The `type` field is called `mtype` here. -/
structure MessageRecord where
  id : String
  conversationId : String
  senderId : String
  content : String
  mtype : String
  createdAt : String
deriving DecidableEq

/-- Outbound frames the relay writes to client connections. -/
inductive OutFrame where
  | auth_success
  | new_message (message : MessageRecord) (sender_username : String)
  | typing (conversationId userId : String) (isTyping : Bool)
  | call_offer (offer callerId callerName conversationId : String) (isVideo : Bool)
  | call_answer (answer answererId : String)
  | ice_candidate (candidate fromUserId : String)
  | call_ended (fromUserId : String)
  | call_rejected (rejecterId : String)
  | call_error (error : String)
  | user_status (userId status : String)
  | error (message : String)
deriving DecidableEq

/-- Successfully parsed inbound frames, one constructor per recognized
`message.type`; `unknown` covers every other `type` value (silently
ignored by the `switch`). -/
inductive InFrame where
  | auth (userId : String)
  | message (conversationId senderId content : String) (messageType : Option String)
  | typing (conversationId userId : String) (isTyping : Bool)
  | call_offer (targetUserId offer callerId callerName conversationId : String) (isVideo : Bool)
  | call_answer (callerId answer answererId : String)
  | ice_candidate (targetUserId candidate fromUserId : String)
  | call_end (targetUserId fromUserId : String)
  | call_reject (callerId rejecterId : String)
  | unknown (t : String)
deriving DecidableEq

/-- Raw inbound data: either it parses to a frame, or `JSON.parse` throws
with message `emsg`. -/
inductive Inbound where
  | frame (f : InFrame)
  | malformed (emsg : String)
deriving DecidableEq

/-- Observable effects of handling one frame, in the order the code
performs them. -/
inductive Effect where
  | registryBind (userId : String) (conn : Nat)
  | registryDelete (userId : String)
  | storeUpdateStatus (userId status : String)
  | storeCreateMessage (message : MessageRecord)
  | send (conn : Nat) (frame : OutFrame)
deriving DecidableEq

/-- The `connections` map: association list with JavaScript `Map`
iteration order. -/
abbrev Registry := List (String × Nat)

/-- `connections.get(k)`: first entry with the key. -/
def connGet : Registry → String → Option Nat
  | [], _ => none
  | (k, v) :: rest, u => if k = u then some v else connGet rest u

/-- `connections.set(u, w)`: update in place if present, else append
(JavaScript `Map.set` keeps insertion order for existing keys). -/
def connSet : Registry → String → Nat → Registry
  | [], u, w => [(u, w)]
  | (k, v) :: rest, u, w => if k = u then (u, w) :: rest else (k, v) :: connSet rest u w

/-- `connections.delete(u)`. -/
def connDelete : Registry → String → Registry
  | [], _ => []
  | (k, v) :: rest, u => if k = u then connDelete rest u else (k, v) :: connDelete rest u

/-- Shared server state: the `connections` map plus the set of connection
handles whose `readyState` is `WebSocket.OPEN`. -/
structure ServerState where
  connections : Registry
  openConns : List Nat
deriving DecidableEq

/-- `connections.get(u)` followed by the
`ws && ws.readyState === WebSocket.OPEN` check used before every forward. -/
def liveConn (st : ServerState) (u : String) : Option Nat :=
  match connGet st.connections u with
  | some c => if c ∈ st.openConns then some c else none
  | none => none

/-- The external store (`dbHelpers`) as seen by the relay.  Each function
models one promise: `.error e` is a rejection with message `e`.
`createMessage` on success yields the fresh `(id, createdAt)` pair chosen
by uuid and clock. -/
structure Env where
  updateUserStatus : String → String → Except String Unit
  createMessage : String → String → String → String → Except String (String × String)
  getConversationParticipants : String → Except String (List String)
  getUserById : String → Except String (Option UserRec)

/-- `dbHelpers.createMessage(conversationId, senderId, content, type)`:
on success resolves `{id, conversationId, senderId, content, type,
createdAt}` built from the arguments plus the environment-supplied id and
timestamp. -/
def dbCreateMessage (env : Env) (conversationId senderId content mtype : String) :
    Except String MessageRecord :=
  match env.createMessage conversationId senderId content mtype with
  | .ok (id, createdAt) => .ok ⟨id, conversationId, senderId, content, mtype, createdAt⟩
  | .error e => .error e

/-- The message `error.message` produces when the code evaluates
`sender.username` with `sender` being `undefined`. -/
def undefinedUsernameError : String :=
  "Cannot read properties of undefined (reading username)"

/-- The fan-out `participants.forEach` of `case 'message'`: for each
participant with a live open connection, send a `new_message` frame built
from the persisted record and `sender.username`.  When `sender` is
`undefined` (`none`), building the frame for the first live participant
throws, aborting the loop with no sends performed before it. -/
def fanoutNewMessage (st : ServerState) (senderOpt : Option UserRec)
    (msgRec : MessageRecord) : List String → List Effect × Option String
  | [] => ([], none)
  | p :: rest =>
    match liveConn st p with
    | some c =>
      match senderOpt with
      | some sender =>
        let r := fanoutNewMessage st senderOpt msgRec rest
        (.send c (.new_message msgRec sender.username) :: r.1, r.2)
      | none => ([], some undefinedUsernameError)
    | none => fanoutNewMessage st senderOpt msgRec rest

/-- The fan-out of `case 'typing'`: every participant other than the
frame's `userId` with a live open connection gets a `typing` frame. -/
def fanoutTyping (st : ServerState) (conversationId userId : String) (isTyping : Bool) :
    List String → List Effect
  | [] => []
  | p :: rest =>
    if p ≠ userId then
      match liveConn st p with
      | some c =>
        .send c (.typing conversationId userId isTyping) ::
          fanoutTyping st conversationId userId isTyping rest
      | none => fanoutTyping st conversationId userId isTyping rest
    else fanoutTyping st conversationId userId isTyping rest

/-- The iteration inside `broadcastStatus`: walk the registry entries and
send a `user_status` frame to every entry whose identity differs from the
subject and whose connection is `OPEN`. -/
def statusSends (opens : List Nat) : Registry → String → String → List Effect
  | [], _, _ => []
  | (id, c) :: rest, u, s =>
    if id ≠ u ∧ c ∈ opens then
      .send c (.user_status u s) :: statusSends opens rest u s
    else statusSends opens rest u s

/-- `broadcastStatus(userId, status)` from `src/websocket.js`. -/
def broadcastStatus (st : ServerState) (userId status : String) : List Effect :=
  statusSends st.openConns st.connections userId status

/-- Result of the `try` block of the `ws.on('message')` handler: the
effects performed, the state and per-connection `userId` variable after
it, and `some e` when an exception with message `e` escaped the block. -/
structure BodyResult where
  trace : List Effect
  state : ServerState
  localUser : Option String
  thrown : Option String
deriving DecidableEq

/-- The `switch (message.type)` inside the `try` block of
`ws.on('message')` in `src/websocket.js`, for connection handle `ws`
whose per-connection `userId` variable holds `localUser`. -/
def frameBody (env : Env) (st : ServerState) (ws : Nat) (localUser : Option String) :
    InFrame → BodyResult
  | .auth u =>
    let st1 : ServerState := { st with connections := connSet st.connections u ws }
    match env.updateUserStatus u "online" with
    | .ok _ =>
      { trace := .registryBind u ws :: .storeUpdateStatus u "online" ::
          (broadcastStatus st1 u "online" ++ [.send ws .auth_success]),
        state := st1, localUser := some u, thrown := none }
    | .error e =>
      { trace := [.registryBind u ws], state := st1, localUser := some u, thrown := some e }
  | .message conversationId senderId content messageType =>
    let mtype := messageType.getD "text"
    match dbCreateMessage env conversationId senderId content mtype with
    | .error e => { trace := [], state := st, localUser := localUser, thrown := some e }
    | .ok msgRec =>
      match env.getConversationParticipants conversationId with
      | .error e =>
        { trace := [.storeCreateMessage msgRec], state := st,
          localUser := localUser, thrown := some e }
      | .ok participants =>
        match env.getUserById senderId with
        | .error e =>
          { trace := [.storeCreateMessage msgRec], state := st,
            localUser := localUser, thrown := some e }
        | .ok senderOpt =>
          let fan := fanoutNewMessage st senderOpt msgRec participants
          { trace := .storeCreateMessage msgRec :: fan.1, state := st,
            localUser := localUser, thrown := fan.2 }
  | .typing conversationId u isTyping =>
    match env.getConversationParticipants conversationId with
    | .error e => { trace := [], state := st, localUser := localUser, thrown := some e }
    | .ok participants =>
      { trace := fanoutTyping st conversationId u isTyping participants,
        state := st, localUser := localUser, thrown := none }
  | .call_offer targetUserId offer callerId callerName conversationId isVideo =>
    match liveConn st targetUserId with
    | some c =>
      { trace := [.send c (.call_offer offer callerId callerName conversationId isVideo)],
        state := st, localUser := localUser, thrown := none }
    | none =>
      { trace := [.send ws (.call_error "User is offline")],
        state := st, localUser := localUser, thrown := none }
  | .call_answer callerId answer answererId =>
    match liveConn st callerId with
    | some c =>
      { trace := [.send c (.call_answer answer answererId)],
        state := st, localUser := localUser, thrown := none }
    | none => { trace := [], state := st, localUser := localUser, thrown := none }
  | .ice_candidate targetUserId candidate fromUserId =>
    match liveConn st targetUserId with
    | some c =>
      { trace := [.send c (.ice_candidate candidate fromUserId)],
        state := st, localUser := localUser, thrown := none }
    | none => { trace := [], state := st, localUser := localUser, thrown := none }
  | .call_end targetUserId fromUserId =>
    match liveConn st targetUserId with
    | some c =>
      { trace := [.send c (.call_ended fromUserId)],
        state := st, localUser := localUser, thrown := none }
    | none => { trace := [], state := st, localUser := localUser, thrown := none }
  | .call_reject callerId rejecterId =>
    match liveConn st callerId with
    | some c =>
      { trace := [.send c (.call_rejected rejecterId)],
        state := st, localUser := localUser, thrown := none }
    | none => { trace := [], state := st, localUser := localUser, thrown := none }
  | .unknown _ => { trace := [], state := st, localUser := localUser, thrown := none }

/-- Result of one full invocation of the `ws.on('message')` handler. -/
structure StepResult where
  trace : List Effect
  state : ServerState
  localUser : Option String
deriving DecidableEq

/-- The whole `ws.on('message')` handler: `JSON.parse` plus the `try`
block, with the `catch` converting a parse failure or any thrown
exception into a single `{type: 'error', error: error.message}` frame on
the same connection. -/
def onMessage (env : Env) (st : ServerState) (ws : Nat) (localUser : Option String) :
    Inbound → StepResult
  | .malformed emsg => { trace := [.send ws (.error emsg)], state := st, localUser := localUser }
  | .frame f =>
    let r := frameBody env st ws localUser f
    match r.thrown with
    | some e =>
      { trace := r.trace ++ [.send ws (.error e)], state := r.state, localUser := r.localUser }
    | none => { trace := r.trace, state := r.state, localUser := r.localUser }

/-- The `ws.on('close')` handler: when the connection was bound,
unconditionally delete the identity from the map, mark it offline in the
store, and broadcast offline status.  A rejected `updateUserStatus`
leaves the later effects unperformed (nothing catches it). -/
def onClose (env : Env) (st : ServerState) (localUser : Option String) :
    List Effect × ServerState :=
  match localUser with
  | none => ([], st)
  | some u =>
    let st1 : ServerState := { st with connections := connDelete st.connections u }
    match env.updateUserStatus u "offline" with
    | .ok _ =>
      (.registryDelete u :: .storeUpdateStatus u "offline" :: broadcastStatus st1 u "offline", st1)
    | .error _ => ([.registryDelete u], st1)

/-- The frames a trace sends to connection `c`, in order. -/
def sentTo (tr : List Effect) (c : Nat) : List OutFrame :=
  tr.filterMap fun e =>
    match e with
    | .send c2 f => if c2 = c then some f else none
    | _ => none

/-- All `new_message` sends of a trace as `(connection, record, sender_username)`. -/
def newMessageSends (tr : List Effect) : List (Nat × MessageRecord × String) :=
  tr.filterMap fun e =>
    match e with
    | .send c (.new_message msgRec su) => some (c, msgRec, su)
    | _ => none

/-- Whether an effect is a `new_message` send. -/
def isNewMessageSend : Effect → Bool
  | .send _ (.new_message _ _) => true
  | _ => false

/-- All `error`-frame sends of a trace as `(connection, message)`. -/
def errorSends (tr : List Effect) : List (Nat × String) :=
  tr.filterMap fun e =>
    match e with
    | .send c (.error m) => some (c, m)
    | _ => none

/-- The effect trace of handling one `message` frame. -/
def msgTrace (env : Env) (st : ServerState) (ws : Nat) (localUser : Option String)
    (conversationId senderId content : String) (messageType : Option String) : List Effect :=
  (onMessage env st ws localUser
    (.frame (.message conversationId senderId content messageType))).trace

theorem connGet_connSet_self (u : String) (w : Nat) :
    ∀ m : Registry, connGet (connSet m u w) u = some w := by
  intro m
  induction m with
  | nil => simp [connSet, connGet]
  | cons p rest ih =>
    obtain ⟨k, v⟩ := p
    by_cases h : k = u
    · simp [connSet, connGet, h]
    · simp [connSet, connGet, h, ih]

theorem connGet_connSet_ne (u k : String) (w : Nat) (hk : k ≠ u) :
    ∀ m : Registry, connGet (connSet m u w) k = connGet m k := by
  intro m
  induction m with
  | nil => simp [connSet, connGet, Ne.symm hk]
  | cons p rest ih =>
    obtain ⟨k2, v⟩ := p
    by_cases h : k2 = u
    · subst h
      simp [connSet, connGet, Ne.symm hk]
    · by_cases h2 : k2 = k <;> simp [connSet, connGet, h, h2, hk, ih]

theorem connGet_connDelete_self (u : String) :
    ∀ m : Registry, connGet (connDelete m u) u = none := by
  intro m
  induction m with
  | nil => simp [connDelete, connGet]
  | cons p rest ih =>
    obtain ⟨k, v⟩ := p
    by_cases h : k = u <;> simp [connDelete, connGet, h, ih]

theorem connGet_connDelete_ne (u k : String) (hk : k ≠ u) :
    ∀ m : Registry, connGet (connDelete m u) k = connGet m k := by
  intro m
  induction m with
  | nil => simp [connDelete, connGet]
  | cons p rest ih =>
    obtain ⟨k2, v⟩ := p
    by_cases h : k2 = u
    · subst h
      simp [connDelete, connGet, Ne.symm hk, ih]
    · by_cases h2 : k2 = k <;> simp [connDelete, connGet, h, h2, hk, ih]

theorem fanoutNewMessage_some (st : ServerState) (sender : UserRec) (msgRec : MessageRecord) :
    ∀ participants : List String,
      fanoutNewMessage st (some sender) msgRec participants
        = ((participants.filterMap (liveConn st)).map
            (fun c => Effect.send c (.new_message msgRec sender.username)), none) := by
  intro participants
  induction participants with
  | nil => rfl
  | cons p rest ih =>
    simp only [fanoutNewMessage, List.filterMap_cons]
    cases h : liveConn st p with
    | none => simpa [h] using ih
    | some c => simp [h, ih]

theorem fanoutNewMessage_none (st : ServerState) (msgRec : MessageRecord) :
    ∀ participants : List String,
      fanoutNewMessage st none msgRec participants
        = ([], if participants.any (fun p => (liveConn st p).isSome)
               then some undefinedUsernameError else none) := by
  intro participants
  induction participants with
  | nil => rfl
  | cons p rest ih =>
    cases h : liveConn st p with
    | none => simp [fanoutNewMessage, h, ih]
    | some c => simp [fanoutNewMessage, h]

theorem newMessageSends_cons_create (msgRec : MessageRecord) (tr : List Effect) :
    newMessageSends (.storeCreateMessage msgRec :: tr) = newMessageSends tr := by
  simp [newMessageSends]

theorem newMessageSends_map (msgRec : MessageRecord) (su : String) :
    ∀ cs : List Nat,
      newMessageSends (cs.map fun c => Effect.send c (.new_message msgRec su))
        = cs.map fun c => (c, msgRec, su) := by
  intro cs
  induction cs with
  | nil => rfl
  | cons c rest ih => simp [newMessageSends] at ih ⊢; exact ih

theorem statusSends_mem (opens : List Nat) (u s id : String) (c : Nat)
    (hne : id ≠ u) (hopen : c ∈ opens) :
    ∀ m : Registry, (id, c) ∈ m →
      Effect.send c (.user_status u s) ∈ statusSends opens m u s := by
  intro m
  induction m with
  | nil => intro h; cases h
  | cons p rest ih =>
    obtain ⟨k2, v⟩ := p
    intro hmem
    rcases List.mem_cons.mp hmem with heq | htail
    · obtain ⟨hk, hv⟩ := Prod.mk.injEq .. ▸ heq
      subst hk; subst hv
      simp [statusSends, hne, hopen]
    · by_cases hcond : k2 ≠ u ∧ v ∈ opens <;>
        simp [statusSends, hcond, ih htail]

theorem statusSends_sound (opens : List Nat) (u s : String) :
    ∀ m : Registry, ∀ e ∈ statusSends opens m u s,
      ∃ id c, (id, c) ∈ m ∧ id ≠ u ∧ c ∈ opens ∧ e = Effect.send c (.user_status u s) := by
  intro m
  induction m with
  | nil => intro e he; simp [statusSends] at he
  | cons p rest ih =>
    obtain ⟨k2, v⟩ := p
    intro e he
    by_cases hcond : k2 ≠ u ∧ v ∈ opens
    · simp only [statusSends, if_pos hcond, List.mem_cons] at he
      rcases he with rfl | htail
      · exact ⟨k2, v, List.mem_cons_self _ _, hcond.1, hcond.2, rfl⟩
      · obtain ⟨id, c, hm, h1, h2, h3⟩ := ih e htail
        exact ⟨id, c, List.mem_cons_of_mem _ hm, h1, h2, h3⟩
    · simp only [statusSends, if_neg hcond] at he
      obtain ⟨id, c, hm, h1, h2, h3⟩ := ih e he
      exact ⟨id, c, List.mem_cons_of_mem _ hm, h1, h2, h3⟩

/-- The whole `ws.on('message')` handler trace is the `try`-block trace
plus, when an exception escaped, the single `error` frame of the `catch`. -/
theorem onMessage_frame_trace (env : Env) (st : ServerState) (ws : Nat)
    (localUser : Option String) (f : InFrame) :
    (onMessage env st ws localUser (.frame f)).trace
      = (frameBody env st ws localUser f).trace
        ++ (match (frameBody env st ws localUser f).thrown with
            | some e => [Effect.send ws (.error e)]
            | none => []) := by
  unfold onMessage
  cases h : (frameBody env st ws localUser f).thrown <;> simp [h]

/-- Binding `auth u` updates the registry and the per-connection variable
the same way whether or not `updateUserStatus` rejects, because
`connections.set` precedes the `await`. -/
theorem onMessage_auth_state (env : Env) (st : ServerState) (ws : Nat)
    (localUser : Option String) (u : String) :
    (onMessage env st ws localUser (.frame (.auth u))).state
      = { st with connections := connSet st.connections u ws }
    ∧ (onMessage env st ws localUser (.frame (.auth u))).localUser = some u := by
  cases h : env.updateUserStatus u "online" <;> simp [onMessage, frameBody, h]

/-- The close handler of a bound connection deletes the identity from the
registry whether or not `updateUserStatus` rejects, because the delete
precedes the `await`. -/
theorem onClose_state (env : Env) (st : ServerState) (u : String) :
    (onClose env st (some u)).2
      = { st with connections := connDelete st.connections u } := by
  cases h : env.updateUserStatus u "offline" <;> simp [onClose, h]

/-- When `createMessage` rejects, the whole `message` handling is the
single `error` frame to the sender. -/
theorem msgTrace_createFail (env : Env) (st : ServerState) (ws : Nat)
    (localUser : Option String) (conversationId senderId content : String)
    (messageType : Option String) (emsg : String)
    (hc : env.createMessage conversationId senderId content (messageType.getD "text")
        = .error emsg) :
    msgTrace env st ws localUser conversationId senderId content messageType
      = [.send ws (.error emsg)] := by
  have h1 : dbCreateMessage env conversationId senderId content (messageType.getD "text")
      = .error emsg := by
    simp [dbCreateMessage, hc]
  simp [msgTrace, onMessage, frameBody, h1]

/-- When `createMessage` resolves, the `try`-block trace of a `message`
frame starts with the persistence effect. -/
theorem frameBody_message_ok (env : Env) (st : ServerState) (ws : Nat)
    (localUser : Option String) (conversationId senderId content : String)
    (messageType : Option String) (id createdAt : String)
    (hc : env.createMessage conversationId senderId content (messageType.getD "text")
        = .ok (id, createdAt)) :
    ∃ rest,
      (frameBody env st ws localUser
          (.message conversationId senderId content messageType)).trace
        = .storeCreateMessage
            ⟨id, conversationId, senderId, content, messageType.getD "text", createdAt⟩ :: rest := by
  have h1 : dbCreateMessage env conversationId senderId content (messageType.getD "text")
      = .ok ⟨id, conversationId, senderId, content, messageType.getD "text", createdAt⟩ := by
    simp [dbCreateMessage, hc]
  simp only [frameBody, h1]
  cases hp : env.getConversationParticipants conversationId with
  | error e => exact ⟨[], rfl⟩
  | ok participants =>
    cases hu : env.getUserById senderId with
    | error e => exact ⟨[], rfl⟩
    | ok senderOpt =>
      exact ⟨(fanoutNewMessage st senderOpt
        ⟨id, conversationId, senderId, content, messageType.getD "text", createdAt⟩
        participants).1, rfl⟩

def envA : Env where
  updateUserStatus := fun _ _ => .ok ()
  createMessage := fun _ _ _ _ => .ok ("m1", "t1")
  getConversationParticipants := fun _ => .ok ["a", "b"]
  getUserById := fun _ => .ok (some ⟨"a", "alice", "alice@mail", "", "online"⟩)

/-- Users `a` (connection 1) and `b` (connection 2) bound, both open. -/
def stAB : ServerState := ⟨[("a", 1), ("b", 2)], [1, 2]⟩

/-- C1: false as stated.  With conversation `c` having participants
`{a, b}`, both bound with open connections, sender `a` sends a message;
the fan-out loop of `case 'message'` has no sender exclusion, so the
sender's own connection 1 receives exactly one `new_message` frame,
contradicting the claim that the sender receives nothing. -/
theorem c1_counterexample :
    sentTo (onMessage envA stAB 1 (some "a")
        (.frame (.message "c" "a" "hi" none))).trace 1
      = [.new_message ⟨"m1", "c", "a", "hi", "text", "t1"⟩ "alice"] := by
  decide

/-- C1 (amended): the fan-out sends exactly one `new_message` frame,
carrying the persisted record and the sender's username, to each
participant with a live open connection — including the sender itself
when the sender is such a participant; participants without a live open
connection are skipped. -/
theorem c1_amended_fanout (env : Env) (st : ServerState) (ws : Nat)
    (localUser : Option String) (conversationId senderId content : String)
    (messageType : Option String) (id createdAt : String)
    (participants : List String) (sender : UserRec)
    (hc : env.createMessage conversationId senderId content (messageType.getD "text")
        = .ok (id, createdAt))
    (hp : env.getConversationParticipants conversationId = .ok participants)
    (hu : env.getUserById senderId = .ok (some sender)) :
    newMessageSends (msgTrace env st ws localUser conversationId senderId content messageType)
      = (participants.filterMap (liveConn st)).map
          (fun c => (c, (⟨id, conversationId, senderId, content,
              messageType.getD "text", createdAt⟩ : MessageRecord), sender.username)) := by
  have h1 : dbCreateMessage env conversationId senderId content (messageType.getD "text")
      = .ok ⟨id, conversationId, senderId, content, messageType.getD "text", createdAt⟩ := by
    simp [dbCreateMessage, hc]
  simp only [msgTrace, onMessage, frameBody, h1, hp, hu, fanoutNewMessage_some]
  rw [newMessageSends_cons_create, newMessageSends_map]

theorem c1_amended_fanout_witness :
    newMessageSends (msgTrace envA stAB 1 (some "a") "c" "a" "hi" none)
      = [(1, ⟨"m1", "c", "a", "hi", "text", "t1"⟩, "alice"),
         (2, ⟨"m1", "c", "a", "hi", "text", "t1"⟩, "alice")] := by
  rw [c1_amended_fanout envA stAB 1 (some "a") "c" "a" "hi" none "m1" "t1"
      ["a", "b"] ⟨"a", "alice", "alice@mail", "", "online"⟩ rfl rfl rfl]
  decide

def envOkStore : Env where
  updateUserStatus := fun _ _ => .ok ()
  createMessage := fun _ _ _ _ => .error "unused"
  getConversationParticipants := fun _ => .ok []
  getUserById := fun _ => .ok none

/-- Identity `u` has been re-bound to the newer connection 7, while an
older connection (handle 3) that was once bound to `u` is about to close. -/
def stRebound : ServerState := ⟨[("u", 7)], [7]⟩

/-- C2: false as stated.  The `ws.on('close')` handler runs
`connections.delete(userId)` without comparing the stored handle to the
closing one: closing the stale connection still bound to `u` evicts the
newer entry `(u, 7)`, so the subsequent lookup returns none instead of
the newer handle. -/
theorem c2_counterexample :
    connGet stRebound.connections "u" = some 7
    ∧ connGet (onClose envOkStore stRebound (some "u")).2.connections "u" = none := by
  decide

/-- C2 (amended): on connection close of a bound connection, the entry
for its identity is removed unconditionally — even when the identity was
re-bound to a newer connection in the meantime, the newer entry is
evicted and lookup of the identity afterwards returns none. -/
theorem c2_amended_unbind (env : Env) (st : ServerState) (u : String) :
    connGet (onClose env st (some u)).2.connections u = none := by
  rw [onClose_state]
  exact connGet_connDelete_self u st.connections

/-- C3: every `new_message` send of a `message` frame is preceded by the
successful persistence effect (which is the very first effect of the
trace whenever any `new_message` is sent), and a rejected `createMessage`
yields zero `new_message` frames and exactly one `error` frame to the
sender. -/
theorem c3_persist_before_fanout (env : Env) (st : ServerState) (ws : Nat)
    (localUser : Option String) (conversationId senderId content : String)
    (messageType : Option String) :
    (∀ e ∈ msgTrace env st ws localUser conversationId senderId content messageType,
        isNewMessageSend e = true →
        ∃ msgRec rest,
          msgTrace env st ws localUser conversationId senderId content messageType
            = .storeCreateMessage msgRec :: rest)
  ∧ (∀ emsg,
        env.createMessage conversationId senderId content (messageType.getD "text")
          = .error emsg →
        newMessageSends
            (msgTrace env st ws localUser conversationId senderId content messageType) = []
        ∧ sentTo (msgTrace env st ws localUser conversationId senderId content messageType) ws
            = [.error emsg]) := by
  constructor
  · intro e he hnm
    cases hc : env.createMessage conversationId senderId content (messageType.getD "text") with
    | error emsg =>
      rw [msgTrace_createFail env st ws localUser conversationId senderId content
          messageType emsg hc] at he
      simp only [List.mem_singleton] at he
      subst he
      simp [isNewMessageSend] at hnm
    | ok pair =>
      obtain ⟨id, createdAt⟩ := pair
      obtain ⟨rest, hrest⟩ := frameBody_message_ok env st ws localUser conversationId
        senderId content messageType id createdAt hc
      have hfull : msgTrace env st ws localUser conversationId senderId content messageType
          = .storeCreateMessage
              ⟨id, conversationId, senderId, content, messageType.getD "text", createdAt⟩ ::
            (rest ++
              (match (frameBody env st ws localUser
                  (.message conversationId senderId content messageType)).thrown with
               | some e2 => [Effect.send ws (.error e2)]
               | none => [])) := by
        rw [msgTrace, onMessage_frame_trace, hrest]
        simp
      exact ⟨_, _, hfull⟩
  · intro emsg hc
    rw [msgTrace_createFail env st ws localUser conversationId senderId content
        messageType emsg hc]
    simp [newMessageSends, sentTo]

def envCreateFail : Env where
  updateUserStatus := fun _ _ => .ok ()
  createMessage := fun _ _ _ _ => .error "db down"
  getConversationParticipants := fun _ => .ok ["a", "b"]
  getUserById := fun _ => .ok none

theorem c3_witness :
    newMessageSends (msgTrace envCreateFail stAB 1 (some "a") "c" "a" "hi" none) = []
    ∧ sentTo (msgTrace envCreateFail stAB 1 (some "a") "c" "a" "hi" none) 1
        = [.error "db down"] :=
  (c3_persist_before_fanout envCreateFail stAB 1 (some "a") "c" "a" "hi" none).2
    "db down" rfl

/-- User `b` is registered on connection 2 but its connection is no
longer `OPEN`; user `a` is registered and open. -/
def stC4 : ServerState := ⟨[("a", 1), ("b", 2)], [1]⟩

/-- C4: false as stated.  `broadcastStatus` skips registered entries
whose connection is not `OPEN`: entry `(b, 2)` is in the registry and
differs from the subject `a`, yet connection 2 receives no `user_status`
frame. -/
theorem c4_counterexample :
    ("b", 2) ∈ stC4.connections ∧ "b" ≠ "a"
    ∧ sentTo (broadcastStatus stC4 "a" "online") 2 = [] := by
  decide

/-- C4 (amended): `broadcastStatus(identity, status)` sends a
`user_status` frame carrying `(identity, status)` to every registered
connection whose identity differs from the subject and whose connection
is currently open, and to nothing else; delivery to one such peer does
not depend on any other entry, and the loop raises nothing back to the
caller (it is a total function of the registry). -/
theorem c4_amended_broadcast (st : ServerState) (u status : String) :
    (∀ id c, (id, c) ∈ st.connections → id ≠ u → c ∈ st.openConns →
        Effect.send c (.user_status u status) ∈ broadcastStatus st u status)
  ∧ (∀ e ∈ broadcastStatus st u status,
        ∃ id c, (id, c) ∈ st.connections ∧ id ≠ u ∧ c ∈ st.openConns
          ∧ e = Effect.send c (.user_status u status)) := by
  constructor
  · intro id c hm hne hopen
    exact statusSends_mem st.openConns u status id c hne hopen st.connections hm
  · intro e he
    exact statusSends_sound st.openConns u status st.connections e he

theorem c4_witness :
    Effect.send 1 (.user_status "b" "online") ∈ broadcastStatus stC4 "b" "online" :=
  (c4_amended_broadcast stC4 "b" "online").1 "a" 1 (by decide) (by decide) (by decide)

theorem errorSends_append (tr1 tr2 : List Effect) :
    errorSends (tr1 ++ tr2) = errorSends tr1 ++ errorSends tr2 := by
  simp [errorSends]

theorem errorSends_cons (e : Effect) (tr : List Effect)
    (h : ∀ c m, e ≠ .send c (.error m)) :
    errorSends (e :: tr) = errorSends tr := by
  cases e with
  | send c fr =>
    cases fr with
    | error m => exact absurd rfl (h c m)
    | _ => simp [errorSends]
  | _ => simp [errorSends]

theorem errorSends_statusSends (opens : List Nat) (u s : String) :
    ∀ m : Registry, errorSends (statusSends opens m u s) = [] := by
  intro m
  induction m with
  | nil => rfl
  | cons p rest ih =>
    obtain ⟨k, c⟩ := p
    by_cases h : k ≠ u ∧ c ∈ opens
    · rw [show statusSends opens ((k, c) :: rest) u s
          = .send c (.user_status u s) :: statusSends opens rest u s by
            simp [statusSends, h]]
      rw [errorSends_cons _ _ (by intro c2 m2 hcm; cases hcm)]
      exact ih
    · rw [show statusSends opens ((k, c) :: rest) u s = statusSends opens rest u s by
            simp [statusSends, h]]
      exact ih

theorem errorSends_fanoutNewMessage (st : ServerState) (senderOpt : Option UserRec)
    (msgRec : MessageRecord) :
    ∀ participants : List String,
      errorSends (fanoutNewMessage st senderOpt msgRec participants).1 = [] := by
  intro participants
  induction participants with
  | nil => rfl
  | cons p rest ih =>
    cases h : liveConn st p with
    | none =>
      rw [show (fanoutNewMessage st senderOpt msgRec (p :: rest)).1
          = (fanoutNewMessage st senderOpt msgRec rest).1 by
            simp [fanoutNewMessage, h]]
      exact ih
    | some c =>
      cases senderOpt with
      | some sender =>
        rw [show (fanoutNewMessage st (some sender) msgRec (p :: rest)).1
            = .send c (.new_message msgRec sender.username) ::
                (fanoutNewMessage st (some sender) msgRec rest).1 by
              simp [fanoutNewMessage, h]]
        rw [errorSends_cons _ _ (by intro c2 m2 hcm; cases hcm)]
        exact ih
      | none => simp [fanoutNewMessage, h, errorSends]

theorem errorSends_fanoutTyping (st : ServerState) (conversationId userId : String)
    (isTyping : Bool) :
    ∀ participants : List String,
      errorSends (fanoutTyping st conversationId userId isTyping participants) = [] := by
  intro participants
  induction participants with
  | nil => rfl
  | cons p rest ih =>
    by_cases hp : p ≠ userId
    · cases h : liveConn st p with
      | none =>
        rw [show fanoutTyping st conversationId userId isTyping (p :: rest)
            = fanoutTyping st conversationId userId isTyping rest by
              simp [fanoutTyping, hp, h]]
        exact ih
      | some c =>
        rw [show fanoutTyping st conversationId userId isTyping (p :: rest)
            = .send c (.typing conversationId userId isTyping) ::
                fanoutTyping st conversationId userId isTyping rest by
              simp [fanoutTyping, hp, h]]
        rw [errorSends_cons _ _ (by intro c2 m2 hcm; cases hcm)]
        exact ih
    · rw [show fanoutTyping st conversationId userId isTyping (p :: rest)
          = fanoutTyping st conversationId userId isTyping rest by
            simp [fanoutTyping, hp]]
      exact ih

/-- The `try` block itself never sends an `error` frame: every `error`
frame comes from the `catch`. -/
theorem frameBody_no_errorSends (env : Env) (st : ServerState) (ws : Nat)
    (localUser : Option String) (f : InFrame) :
    errorSends (frameBody env st ws localUser f).trace = [] := by
  cases f with
  | auth u =>
    cases h : env.updateUserStatus u "online" with
    | ok r =>
      rw [show (frameBody env st ws localUser (.auth u)).trace
          = .registryBind u ws :: .storeUpdateStatus u "online" ::
              (broadcastStatus { st with connections := connSet st.connections u ws }
                u "online" ++ [.send ws .auth_success]) by
            simp [frameBody, h]]
      rw [errorSends_cons _ _ (by intro c2 m2 hcm; cases hcm),
        errorSends_cons _ _ (by intro c2 m2 hcm; cases hcm),
        errorSends_append, broadcastStatus, errorSends_statusSends,
        errorSends_cons _ _ (by intro c2 m2 hcm; cases hcm)]
      rfl
    | error e => simp [frameBody, h, errorSends]
  | message conversationId senderId content messageType =>
    cases hc : dbCreateMessage env conversationId senderId content
        (messageType.getD "text") with
    | error e => simp [frameBody, hc, errorSends]
    | ok msgRec =>
      cases hp : env.getConversationParticipants conversationId with
      | error e => simp [frameBody, hc, hp, errorSends]
      | ok participants =>
        cases hu : env.getUserById senderId with
        | error e => simp [frameBody, hc, hp, hu, errorSends]
        | ok senderOpt =>
          rw [show (frameBody env st ws localUser
              (.message conversationId senderId content messageType)).trace
              = .storeCreateMessage msgRec ::
                  (fanoutNewMessage st senderOpt msgRec participants).1 by
                simp [frameBody, hc, hp, hu]]
          rw [errorSends_cons _ _ (by intro c2 m2 hcm; cases hcm)]
          exact errorSends_fanoutNewMessage st senderOpt msgRec participants
  | typing conversationId u isTyping =>
    cases hp : env.getConversationParticipants conversationId with
    | error e => simp [frameBody, hp, errorSends]
    | ok participants =>
      rw [show (frameBody env st ws localUser (.typing conversationId u isTyping)).trace
          = fanoutTyping st conversationId u isTyping participants by
            simp [frameBody, hp]]
      exact errorSends_fanoutTyping st conversationId u isTyping participants
  | call_offer targetUserId offer callerId callerName conversationId isVideo =>
    cases h : liveConn st targetUserId <;> simp [frameBody, h, errorSends]
  | call_answer callerId answer answererId =>
    cases h : liveConn st callerId <;> simp [frameBody, h, errorSends]
  | ice_candidate targetUserId candidate fromUserId =>
    cases h : liveConn st targetUserId <;> simp [frameBody, h, errorSends]
  | call_end targetUserId fromUserId =>
    cases h : liveConn st targetUserId <;> simp [frameBody, h, errorSends]
  | call_reject callerId rejecterId =>
    cases h : liveConn st callerId <;> simp [frameBody, h, errorSends]
  | unknown t => simp [frameBody, errorSends]

def envStatusFail : Env where
  updateUserStatus := fun _ _ => .error "db down"
  createMessage := fun _ _ _ _ => .error "unused"
  getConversationParticipants := fun _ => .ok []
  getUserById := fun _ => .ok none

/-- No connection bound; connection 1 is open. -/
def stEmpty : ServerState := ⟨[], [1]⟩

/-- C5: false as stated.  An `auth` frame whose `updateUserStatus` call
rejects raises an exception during handling: exactly one `error` frame is
sent back (so this is the exception case of the claim), yet the Registry
is not left unchanged — `connections.set` ran before the `await`, so the
registry gained the entry `(u, 1)`. -/
theorem c5_counterexample :
    (onMessage envStatusFail stEmpty 1 none (.frame (.auth "u"))).state.connections
        = [("u", 1)]
    ∧ stEmpty.connections = []
    ∧ sentTo (onMessage envStatusFail stEmpty 1 none (.frame (.auth "u"))).trace 1
        = [.error "db down"] := by
  decide

/-- C5 (amended): an unparseable payload yields exactly one `error` frame
on the same connection with the Registry, the per-connection binding and
every other connection untouched (the whole result is that single send);
an exception raised during handling likewise yields exactly one `error`
frame on the same connection (the `try` block itself never emits `error`
frames), but the effects performed before the throw are kept — e.g. a
failed `auth` leaves its new registry binding in place.  In neither case
is the connection terminated (the handler returns normally). -/
theorem c5_amended_dispatcher (env : Env) (st : ServerState) (ws : Nat)
    (localUser : Option String) :
    (∀ emsg, onMessage env st ws localUser (.malformed emsg)
        = { trace := [.send ws (.error emsg)], state := st, localUser := localUser })
  ∧ (∀ f e, (frameBody env st ws localUser f).thrown = some e →
        onMessage env st ws localUser (.frame f)
          = { trace := (frameBody env st ws localUser f).trace ++ [.send ws (.error e)],
              state := (frameBody env st ws localUser f).state,
              localUser := (frameBody env st ws localUser f).localUser }
        ∧ errorSends (onMessage env st ws localUser (.frame f)).trace = [(ws, e)]) := by
  constructor
  · intro emsg
    rfl
  · intro f e hthrown
    have heq : onMessage env st ws localUser (.frame f)
        = { trace := (frameBody env st ws localUser f).trace ++ [.send ws (.error e)],
            state := (frameBody env st ws localUser f).state,
            localUser := (frameBody env st ws localUser f).localUser } := by
      simp only [onMessage, hthrown]
    refine ⟨heq, ?_⟩
    rw [heq]
    simp only [errorSends_append, frameBody_no_errorSends]
    simp [errorSends]

theorem c5_witness :
    onMessage envStatusFail stEmpty 1 none (.frame (.auth "u"))
      = { trace := (frameBody envStatusFail stEmpty 1 none (.auth "u")).trace
            ++ [.send 1 (.error "db down")],
          state := (frameBody envStatusFail stEmpty 1 none (.auth "u")).state,
          localUser := (frameBody envStatusFail stEmpty 1 none (.auth "u")).localUser }
    ∧ errorSends (onMessage envStatusFail stEmpty 1 none (.frame (.auth "u"))).trace
        = [(1, "db down")] :=
  (c5_amended_dispatcher envStatusFail stEmpty 1 none).2 (.auth "u") "db down" rfl

/-- C6: a `call_offer` whose target has no live open registry entry
produces exactly one `call_error {User is offline}` frame back to the
sender and no other effect: nothing is forwarded anywhere and the state
is unchanged. -/
theorem c6_call_offer_offline (env : Env) (st : ServerState) (ws : Nat)
    (localUser : Option String)
    (targetUserId offer callerId callerName conversationId : String) (isVideo : Bool)
    (h : liveConn st targetUserId = none) :
    onMessage env st ws localUser
        (.frame (.call_offer targetUserId offer callerId callerName conversationId isVideo))
      = { trace := [.send ws (.call_error "User is offline")],
          state := st, localUser := localUser } := by
  simp [onMessage, frameBody, h]

theorem c6_witness :
    liveConn stAB "z" = none
    ∧ onMessage envA stAB 1 (some "a") (.frame (.call_offer "z" "o" "a" "alice" "c" true))
        = { trace := [.send 1 (.call_error "User is offline")],
            state := stAB, localUser := some "a" } :=
  ⟨by decide,
   c6_call_offer_offline envA stAB 1 (some "a") "z" "o" "a" "alice" "c" true (by decide)⟩

/-- C7: each of `call_answer`, `ice_candidate`, `call_end`, `call_reject`
whose target identity (`callerId` for answer and reject, `targetUserId`
for ICE candidates and end) has no live open registry entry produces no
effect at all: zero frames to any connection, no error to the sender,
state unchanged. -/
theorem c7_signaling_silent_drop (env : Env) (st : ServerState) (ws : Nat)
    (localUser : Option String) :
    (∀ callerId answer answererId, liveConn st callerId = none →
        onMessage env st ws localUser (.frame (.call_answer callerId answer answererId))
          = { trace := [], state := st, localUser := localUser })
  ∧ (∀ targetUserId candidate fromUserId, liveConn st targetUserId = none →
        onMessage env st ws localUser
            (.frame (.ice_candidate targetUserId candidate fromUserId))
          = { trace := [], state := st, localUser := localUser })
  ∧ (∀ targetUserId fromUserId, liveConn st targetUserId = none →
        onMessage env st ws localUser (.frame (.call_end targetUserId fromUserId))
          = { trace := [], state := st, localUser := localUser })
  ∧ (∀ callerId rejecterId, liveConn st callerId = none →
        onMessage env st ws localUser (.frame (.call_reject callerId rejecterId))
          = { trace := [], state := st, localUser := localUser }) := by
  refine ⟨?_, ?_, ?_, ?_⟩
  · intro callerId answer answererId h
    simp [onMessage, frameBody, h]
  · intro targetUserId candidate fromUserId h
    simp [onMessage, frameBody, h]
  · intro targetUserId fromUserId h
    simp [onMessage, frameBody, h]
  · intro callerId rejecterId h
    simp [onMessage, frameBody, h]

theorem c7_witness :
    onMessage envA stAB 1 (some "a") (.frame (.call_answer "z" "ans" "a"))
      = { trace := [], state := stAB, localUser := some "a" } :=
  (c7_signaling_silent_drop envA stAB 1 (some "a")).1 "z" "ans" "a" (by decide)

/-- C8: a successful `auth` performs, in this order: (1) the registry
bind of the identity to this connection, (2) the store update marking the
user online, (3) the presence broadcast of `(identity, online)` over the
updated registry, (4) the `auth_success` acknowledgment on the same
connection — the trace equality exhibits the four effects in exactly that
order. -/
theorem c8_auth_effect_order (env : Env) (st : ServerState) (ws : Nat)
    (localUser : Option String) (u : String)
    (h : env.updateUserStatus u "online" = .ok ()) :
    onMessage env st ws localUser (.frame (.auth u))
      = { trace := .registryBind u ws :: .storeUpdateStatus u "online" ::
            (broadcastStatus { st with connections := connSet st.connections u ws }
                u "online"
              ++ [.send ws .auth_success]),
          state := { st with connections := connSet st.connections u ws },
          localUser := some u } := by
  simp [onMessage, frameBody, h]

theorem c8_witness :
    onMessage envA stAB 3 none (.frame (.auth "x"))
      = { trace := .registryBind "x" 3 :: .storeUpdateStatus "x" "online" ::
            (broadcastStatus { stAB with connections := connSet stAB.connections "x" 3 }
                "x" "online"
              ++ [.send 3 .auth_success]),
          state := { stAB with connections := connSet stAB.connections "x" 3 },
          localUser := some "x" } :=
  c8_auth_effect_order envA stAB 3 none "x" rfl

/-- The state after one connection `ws` processes `auth u` and then
`auth v` (the per-connection `userId` variable being reassigned by the
second frame). -/
def afterTwoAuth (env : Env) (st : ServerState) (ws : Nat) (u v : String) : StepResult :=
  onMessage env (onMessage env st ws none (.frame (.auth u))).state ws
    (onMessage env st ws none (.frame (.auth u))).localUser (.frame (.auth v))

/-- The close of that connection after the two auth frames. -/
def afterTwoAuthClose (env : Env) (st : ServerState) (ws : Nat) (u v : String) :
    List Effect × ServerState :=
  onClose env (afterTwoAuth env st ws u v).state (afterTwoAuth env st ws u v).localUser

/-- C9: after a connection bound to `u` processes a second `auth` frame
carrying `v ≠ u`, both identities map to this connection's handle; the
subsequent close removes only `v`'s entry (the variable now holds `v`),
and `u`'s entry survives, still pointing at the closed connection. -/
theorem c9_rebind_leaves_stale_entry (env : Env) (st : ServerState) (ws : Nat)
    (u v : String) (huv : u ≠ v) :
    connGet (afterTwoAuth env st ws u v).state.connections u = some ws
  ∧ connGet (afterTwoAuth env st ws u v).state.connections v = some ws
  ∧ (afterTwoAuth env st ws u v).localUser = some v
  ∧ connGet (afterTwoAuthClose env st ws u v).2.connections v = none
  ∧ connGet (afterTwoAuthClose env st ws u v).2.connections u = some ws := by
  obtain ⟨hs1, hl1⟩ := onMessage_auth_state env st ws none u
  obtain ⟨hs2, hl2⟩ := onMessage_auth_state env
    (onMessage env st ws none (.frame (.auth u))).state ws
    (onMessage env st ws none (.frame (.auth u))).localUser v
  have hconns : (afterTwoAuth env st ws u v).state.connections
      = connSet (connSet st.connections u ws) v ws := by
    rw [afterTwoAuth, hs2, hs1]
  have hlocal : (afterTwoAuth env st ws u v).localUser = some v := by
    rw [afterTwoAuth, hl2]
  have hu2 : connGet (afterTwoAuth env st ws u v).state.connections u = some ws := by
    rw [hconns, connGet_connSet_ne v u ws huv, connGet_connSet_self]
  have hv2 : connGet (afterTwoAuth env st ws u v).state.connections v = some ws := by
    rw [hconns, connGet_connSet_self]
  have hclose : (afterTwoAuthClose env st ws u v).2.connections
      = connDelete (afterTwoAuth env st ws u v).state.connections v := by
    rw [afterTwoAuthClose, hlocal, onClose_state]
  refine ⟨hu2, hv2, hlocal, ?_, ?_⟩
  · rw [hclose, connGet_connDelete_self]
  · rw [hclose, connGet_connDelete_ne v u (Ne.symm (Ne.symm huv)), hu2]

theorem c9_witness :
    connGet (afterTwoAuth envA stEmpty 5 "u" "v").state.connections "u" = some 5
  ∧ connGet (afterTwoAuth envA stEmpty 5 "u" "v").state.connections "v" = some 5
  ∧ (afterTwoAuth envA stEmpty 5 "u" "v").localUser = some "v"
  ∧ connGet (afterTwoAuthClose envA stEmpty 5 "u" "v").2.connections "v" = none
  ∧ connGet (afterTwoAuthClose envA stEmpty 5 "u" "v").2.connections "u" = some 5 :=
  c9_rebind_leaves_stale_entry envA stEmpty 5 "u" "v" (by decide)

/-- C10: when `createMessage` resolves but `getUserById` resolves
`undefined`, the whole trace is the persistence effect followed by a
single `error` frame to the sender when at least one participant has a
live open connection, and by nothing at all otherwise — the message is
durably persisted, zero `new_message` frames are sent, and the sender
gets exactly one `error` frame precisely in the former case. -/
theorem c10_persisted_never_fanned (env : Env) (st : ServerState) (ws : Nat)
    (localUser : Option String) (conversationId senderId content : String)
    (messageType : Option String) (id createdAt : String) (participants : List String)
    (hc : env.createMessage conversationId senderId content (messageType.getD "text")
        = .ok (id, createdAt))
    (hp : env.getConversationParticipants conversationId = .ok participants)
    (hu : env.getUserById senderId = .ok none) :
    msgTrace env st ws localUser conversationId senderId content messageType
      = .storeCreateMessage
          ⟨id, conversationId, senderId, content, messageType.getD "text", createdAt⟩ ::
        (if participants.any (fun p => (liveConn st p).isSome)
         then [.send ws (.error undefinedUsernameError)] else [])
    ∧ newMessageSends
        (msgTrace env st ws localUser conversationId senderId content messageType) = [] := by
  have h1 : dbCreateMessage env conversationId senderId content (messageType.getD "text")
      = .ok ⟨id, conversationId, senderId, content, messageType.getD "text", createdAt⟩ := by
    simp [dbCreateMessage, hc]
  have htr : msgTrace env st ws localUser conversationId senderId content messageType
      = .storeCreateMessage
          ⟨id, conversationId, senderId, content, messageType.getD "text", createdAt⟩ ::
        (if participants.any (fun p => (liveConn st p).isSome)
         then [.send ws (.error undefinedUsernameError)] else []) := by
    simp only [msgTrace, onMessage, frameBody, h1, hp, hu, fanoutNewMessage_none]
    by_cases h : participants.any (fun p => (liveConn st p).isSome) <;> simp [h]
  refine ⟨htr, ?_⟩
  rw [htr, newMessageSends_cons_create]
  by_cases h : participants.any (fun p => (liveConn st p).isSome) <;>
    simp [h, newMessageSends]

def envNoSender : Env where
  updateUserStatus := fun _ _ => .ok ()
  createMessage := fun _ _ _ _ => .ok ("m1", "t1")
  getConversationParticipants := fun _ => .ok ["a", "b"]
  getUserById := fun _ => .ok none

theorem c10_witness :
    msgTrace envNoSender stAB 1 (some "a") "c" "a" "hi" none
      = [.storeCreateMessage ⟨"m1", "c", "a", "hi", "text", "t1"⟩,
         .send 1 (.error undefinedUsernameError)]
    ∧ newMessageSends (msgTrace envNoSender stAB 1 (some "a") "c" "a" "hi" none) = [] := by
  obtain ⟨h1, h2⟩ := c10_persisted_never_fanned envNoSender stAB 1 (some "a")
    "c" "a" "hi" none "m1" "t1" ["a", "b"] rfl rfl rfl
  refine ⟨?_, h2⟩
  rw [h1]
  decide
